import Mathlib

/-!
Verification development for the code-conversion service
(`backend-fastapi/api/routes/covert.py`).

The file shallowly embeds the route module: the JSON values exchanged with
the LLM gateway, the Python-side JSON decoding (`json.loads`), the pipeline
state, the two stage functions `extract_languages` and `convert_code`, the
linear two-node workflow built by `build_chain`, and the endpoint handler
`convert_code_endpoint`.  The external gateway `chat` (from `utils.chat`,
an external collaborator) is modelled as an oracle: a queue of outcomes,
one per call, each either a returned string or a raised exception message.
Every call made to the gateway is recorded in a trace so that temporal
claims (call counts, ordering) can be stated.
-/

/-- JSON values, as produced by Python's `json.loads`.  Numbers are
modelled as integers; the payloads exchanged by this service contain only
strings, arrays of strings and objects. -/
inductive Json where
  | null : Json
  | bool : Bool → Json
  | num : Int → Json
  | str : String → Json
  | arr : List Json → Json
  | obj : List (String × Json) → Json

mutual

/-- Python `repr` of a JSON-decoded value, used when a non-string value is
interpolated into an f-string. -/
def pyRepr : Json → String
  | Json.null => "None"
  | Json.bool true => "True"
  | Json.bool false => "False"
  | Json.num n => toString n
  | Json.str s => "\x27" ++ s ++ "\x27"
  | Json.arr xs => "[" ++ String.intercalate ", " (pyReprList xs) ++ "]"
  | Json.obj kvs => "\x7b" ++ String.intercalate ", " (pyReprObj kvs) ++ "\x7d"

/-- `repr` of each element of a decoded JSON array. -/
def pyReprList : List Json → List String
  | [] => []
  | x :: xs => pyRepr x :: pyReprList xs

/-- `repr` of each entry of a decoded JSON object. -/
def pyReprObj : List (String × Json) → List String
  | [] => []
  | (k, v) :: xs => ("\x27" ++ k ++ "\x27: " ++ pyRepr v) :: pyReprObj xs

end

/-- Python `str()` of a JSON-decoded value: a `str` formats as itself,
anything else as its `repr`.  This is what an f-string interpolation of a
state field performs. -/
def pyFormat : Json → String
  | Json.str s => s
  | v => pyRepr v

/-- JSON whitespace, as skipped by `json.loads`. -/
def isJsonWs (c : Char) : Bool :=
  c = ' ' || c = '\n' || c = '\t' || c = '\r'

/-- Drop leading JSON whitespace. -/
def skipWs : List Char → List Char
  | [] => []
  | c :: cs => if isJsonWs c then skipWs cs else c :: cs

/-- Value of a hexadecimal digit, for `\uXXXX` escapes. -/
def hexVal (c : Char) : Option Nat :=
  if '0' ≤ c ∧ c ≤ '9' then some (c.toNat - '0'.toNat)
  else if 'a' ≤ c ∧ c ≤ 'f' then some (c.toNat - 'a'.toNat + 10)
  else if 'A' ≤ c ∧ c ≤ 'F' then some (c.toNat - 'A'.toNat + 10)
  else none

/-- Parse the body of a JSON string literal (the opening quote already
consumed), returning the decoded characters and the remaining input. -/
def parseStringBody : Nat → List Char → Option (List Char × List Char)
  | 0, _ => none
  | _, [] => none
  | fuel + 1, c :: cs =>
    if c = '"' then some ([], cs)
    else if c = '\\' then
      match cs with
      | [] => none
      | e :: cs2 =>
        let decoded : Option (Char × List Char) :=
          if e = '"' then some ('"', cs2)
          else if e = '\\' then some ('\\', cs2)
          else if e = '/' then some ('/', cs2)
          else if e = 'n' then some ('\n', cs2)
          else if e = 't' then some ('\t', cs2)
          else if e = 'r' then some ('\r', cs2)
          else if e = 'b' then some (Char.ofNat 8, cs2)
          else if e = 'f' then some (Char.ofNat 12, cs2)
          else if e = 'u' then
            match cs2 with
            | a :: b :: c2 :: d :: cs3 =>
              match hexVal a, hexVal b, hexVal c2, hexVal d with
              | some ha, some hb, some hc, some hd =>
                some (Char.ofNat (((ha * 16 + hb) * 16 + hc) * 16 + hd), cs3)
              | _, _, _, _ => none
            | _ => none
          else none
        match decoded with
        | none => none
        | some (ch, rest) =>
          match parseStringBody fuel rest with
          | none => none
          | some (s, r) => some (ch :: s, r)
    else
      match parseStringBody fuel cs with
      | none => none
      | some (s, r) => some (c :: s, r)

/-- Parse a run of decimal digits. -/
def parseDigits : List Char → Option (Nat × List Char)
  | [] => none
  | c :: cs =>
    if c.isDigit then
      let rec go (acc : Nat) : List Char → Nat × List Char
        | [] => (acc, [])
        | d :: ds =>
          if d.isDigit then go (acc * 10 + (d.toNat - '0'.toNat)) ds
          else (acc, d :: ds)
      some (go (c.toNat - '0'.toNat) cs)
    else none

mutual

/-- Parse one JSON value.  Fuel-indexed recursive descent; any fuel at
least the input length succeeds exactly when the input is valid JSON of
the fragment this model supports. -/
def parseValue : Nat → List Char → Option (Json × List Char)
  | 0, _ => none
  | fuel + 1, input =>
    match skipWs input with
    | [] => none
    | c :: cs =>
      if c = '"' then
        match parseStringBody (fuel + 1) cs with
        | none => none
        | some (s, r) => some (Json.str (String.mk s), r)
      else if c = '{' then parseMembers fuel cs
      else if c = '[' then parseItems fuel cs
      else if c = 't' then
        match cs with
        | 'r' :: 'u' :: 'e' :: r => some (Json.bool true, r)
        | _ => none
      else if c = 'f' then
        match cs with
        | 'a' :: 'l' :: 's' :: 'e' :: r => some (Json.bool false, r)
        | _ => none
      else if c = 'n' then
        match cs with
        | 'u' :: 'l' :: 'l' :: r => some (Json.null, r)
        | _ => none
      else if c = '-' then
        match parseDigits cs with
        | none => none
        | some (n, r) => some (Json.num (-(n : Int)), r)
      else
        match parseDigits (c :: cs) with
        | none => none
        | some (n, r) => some (Json.num (n : Int), r)

/-- Parse the items of a JSON array, the opening bracket already
consumed. -/
def parseItems : Nat → List Char → Option (Json × List Char)
  | 0, _ => none
  | fuel + 1, input =>
    match skipWs input with
    | ']' :: r => some (Json.arr [], r)
    | rest =>
      match parseValue fuel rest with
      | none => none
      | some (v, r1) =>
        match parseItemsTail fuel r1 with
        | none => none
        | some (vs, r2) => some (Json.arr (v :: vs), r2)

/-- Parse `, value`* `]`, the tail of a JSON array. -/
def parseItemsTail : Nat → List Char → Option (List Json × List Char)
  | 0, _ => none
  | fuel + 1, input =>
    match skipWs input with
    | ']' :: r => some ([], r)
    | ',' :: r =>
      match parseValue fuel r with
      | none => none
      | some (v, r1) =>
        match parseItemsTail fuel r1 with
        | none => none
        | some (vs, r2) => some (v :: vs, r2)
    | _ => none

/-- Parse the members of a JSON object, the opening brace already
consumed. -/
def parseMembers : Nat → List Char → Option (Json × List Char)
  | 0, _ => none
  | fuel + 1, input =>
    match skipWs input with
    | '}' :: r => some (Json.obj [], r)
    | rest =>
      match parseMember fuel rest with
      | none => none
      | some (kv, r1) =>
        match parseMembersTail fuel r1 with
        | none => none
        | some (kvs, r2) => some (Json.obj (kv :: kvs), r2)

/-- Parse one `"key": value` member. -/
def parseMember : Nat → List Char → Option ((String × Json) × List Char)
  | 0, _ => none
  | fuel + 1, input =>
    match skipWs input with
    | '"' :: cs =>
      match parseStringBody (fuel + 1) cs with
      | none => none
      | some (k, r1) =>
        match skipWs r1 with
        | ':' :: r2 =>
          match parseValue fuel r2 with
          | none => none
          | some (v, r3) => some ((String.mk k, v), r3)
        | _ => none
    | _ => none

/-- Parse `, member`* `}`, the tail of a JSON object. -/
def parseMembersTail : Nat → List Char → Option (List (String × Json) × List Char)
  | 0, _ => none
  | fuel + 1, input =>
    match skipWs input with
    | '}' :: r => some ([], r)
    | ',' :: r =>
      match parseMember fuel r with
      | none => none
      | some (kv, r1) =>
        match parseMembersTail fuel r1 with
        | none => none
        | some (kvs, r2) => some (kv :: kvs, r2)
    | _ => none

end

/-- Model of Python's `json.loads`: decode a string into a JSON value or
raise (here: return an error message).  `json` is the standard library,
external to the repository; the model covers the JSON fragment this
service exchanges. -/
def json_loads (s : String) : Except String Json :=
  match parseValue (s.length + 1) s.data with
  | none => Except.error "Expecting value"
  | some (j, rest) =>
    match skipWs rest with
    | [] => Except.ok j
    | _ => Except.error "Extra data"

/-- Lookup in a decoded JSON object; on duplicate keys the last binding
wins, as in a Python dict built by `json.loads`. -/
def lookupField : List (String × Json) → String → Option Json
  | [], _ => none
  | (k, v) :: rest, key =>
    match lookupField rest key with
    | some v2 => some v2
    | none => if k = key then some v else none

/-- Python subscripting `j[key]` on a decoded JSON value: `KeyError` when
the key is absent, `TypeError` when the value is not a dict. -/
def getItem (j : Json) (key : String) : Except String Json :=
  match j with
  | Json.obj fields =>
    match lookupField fields key with
    | some v => Except.ok v
    | none => Except.error ("\x27" ++ key ++ "\x27")
  | _ => Except.error "object is not subscriptable"

/-- Pydantic validation of a `str` field: only a string is accepted. -/
def asStr : Json → Except String String
  | Json.str s => Except.ok s
  | _ => Except.error "Input should be a valid string"

/-- Pydantic validation of the items of a `list[str]` field: every item
must be a string. -/
def asStrItems : List Json → Except String (List String)
  | [] => Except.ok []
  | Json.str s :: rest =>
    match asStrItems rest with
    | Except.ok ss => Except.ok (s :: ss)
    | Except.error m => Except.error m
  | _ :: _ => Except.error "Input should be a valid string"

/-- Pydantic validation of a `list[str]` field: only an array whose items
are all strings is accepted. -/
def asStrList : Json → Except String (List String)
  | Json.arr xs => asStrItems xs
  | _ => Except.error "Input should be a valid list"

/-- The Language Catalog: the values of the `ProgrammingLanguage` enum, in
declaration order (`[lang.value for lang in ProgrammingLanguage]`). -/
def programmingLanguages : List String :=
  ["javascript", "typescript", "php", "html", "css",
   "python", "java", "csharp", "go", "rust", "ruby", "nodejs",
   "kotlin", "swift", "dart", "flutter", "react_native",
   "cpp", "c", "assembly",
   "sql", "plsql", "mongodb",
   "bash", "powershell",
   "scala", "haskell", "elixir",
   "r", "julia", "matlab",
   "terraform", "kubernetes", "docker",
   "lua", "perl", "groovy", "cobol", "fortran"]

/-- The `response_format` JSON schema passed by `extract_languages`: both
language fields required, each an enum over the Language Catalog. -/
def extractSchema : Json :=
  Json.obj
    [("type", Json.str "object"),
     ("properties", Json.obj
       [("source_language", Json.obj
         [("type", Json.str "string"),
          ("enum", Json.arr (programmingLanguages.map Json.str))]),
        ("target_language", Json.obj
         [("type", Json.str "string"),
          ("enum", Json.arr (programmingLanguages.map Json.str))])]),
     ("required", Json.arr [Json.str "source_language", Json.str "target_language"])]

/-- The `response_format` JSON schema passed by `convert_code`: `code`,
`language_specific_notes` and `potential_compatibility_issues`, all
required. -/
def convertSchema : Json :=
  Json.obj
    [("type", Json.str "object"),
     ("properties", Json.obj
       [("code", Json.obj
         [("type", Json.str "string"),
          ("description", Json.str "The converted code")]),
        ("language_specific_notes", Json.obj
         [("type", Json.str "array"),
          ("items", Json.obj [("type", Json.str "string")]),
          ("description", Json.str "Important notes about the target language")]),
        ("potential_compatibility_issues", Json.obj
         [("type", Json.str "array"),
          ("items", Json.obj [("type", Json.str "string")]),
          ("description", Json.str "List of potential compatibility concerns")])]),
     ("required", Json.arr
       [Json.str "code",
        Json.str "language_specific_notes",
        Json.str "potential_compatibility_issues"])]

/-- The request body model `CodeConvertRequest`. -/
structure CodeConvertRequest where
  code : String
  prompt : String
deriving DecidableEq

/-- Pydantic construction of a `CodeConvertRequest` from a body in which
`prompt` may be omitted: it defaults to
`"Convert the code to the target language."`. -/
def requestFromBody (code : String) (promptField : Option String) : CodeConvertRequest :=
  { code := code,
    prompt := promptField.getD "Convert the code to the target language." }

/-- The response model `CodeConvertResponse`. -/
structure CodeConvertResponse where
  code : String
  language_specific_notes : List String
  potential_compatibility_issues : List String
deriving DecidableEq

/-- The pipeline state `ConversionState`.  `TypedDict` is not enforced at
runtime, so the language fields and `result` hold whatever JSON-decoded
values the stages store. -/
structure ConversionState where
  code : String
  prompt : String
  source_language : Json
  target_language : Json
  result : Json

/-- One recorded invocation of the gateway `chat`: its prompt, sampling
temperature and `response_format` schema. -/
structure ChatCall where
  prompt : String
  temperature : ℚ
  response_format : Json

/-- Gateway oracle plus call trace: `pending` holds the outcome of each
future call in order (a returned string, or a raised exception message);
`calls` records every call made so far. -/
structure RunLog where
  calls : List ChatCall
  pending : List (Except String String)

/-- Model of the external gateway `chat` (from `utils.chat`, not part of
this repository): record the call, then produce the next scripted outcome.
An exhausted oracle behaves as a raising gateway. -/
def chat (prompt : String) (temperature : ℚ) (response_format : Json)
    (log : RunLog) : Except String String × RunLog :=
  let calls2 := log.calls ++ [⟨prompt, temperature, response_format⟩]
  match log.pending with
  | [] => (Except.error "gateway unavailable", { calls := calls2, pending := [] })
  | outcome :: rest => (outcome, { calls := calls2, pending := rest })

/-- The analysis instruction f-string built by `extract_languages`, with
the state's `prompt` and `code` interpolated. -/
def extract_prompt (promptField codeField : String) : String :=
  "\n    Analyze the following prompt and identify the source and target programming languages.\n    Return only a JSON object with \x27source_language\x27 and \x27target_language\x27.\n    Use lowercase language names from this list: python, javascript, typescript, java, csharp, go, rust, cpp, swift, kotlin.\n    If languages are not explicitly mentioned, try to infer from context or code.\n    \n    Prompt: "
    ++ promptField
    ++ "\n    \n    Code sample for reference:\n    ```\n    "
    ++ codeField
    ++ "\n    ```\n    "

/-- Stage 1, `extract_languages`: build the analysis instruction, call the
gateway at temperature 0 with `extractSchema`, decode the reply and write
`source_language` and `target_language` into the state. -/
def extract_languages (state : ConversionState) (log : RunLog) :
    Except String ConversionState × RunLog :=
  match chat (extract_prompt state.prompt state.code) 0 extractSchema log with
  | (Except.error m, log2) => (Except.error m, log2)
  | (Except.ok response, log2) =>
    match json_loads response with
    | Except.error m => (Except.error m, log2)
    | Except.ok languages =>
      match getItem languages "source_language" with
      | Except.error m => (Except.error m, log2)
      | Except.ok sl =>
        match getItem languages "target_language" with
        | Except.error m => (Except.error m, log2)
        | Except.ok tl =>
          (Except.ok { state with source_language := sl, target_language := tl }, log2)

/-- The translation instruction f-string built by `convert_code`, with the
state's `source_language`, `target_language` and `code` interpolated. -/
def convert_prompt (src tgt codeField : String) : String :=
  "\n    Please convert the following code from "
    ++ src ++ " to " ++ tgt
    ++ ":\n\n    ---\n    ### **📌 Original Code ("
    ++ src ++ ")**\n    ```" ++ src ++ "\n    "
    ++ codeField
    ++ "\n    ```\n\n    **Conversion Requirements:**\n    1️⃣ Maintain the same functionality and logic\n    2️⃣ Use idiomatic patterns and best practices of the target language\n    3️⃣ Ensure the converted code is executable\n    4️⃣ Provide any language-specific considerations\n    5️⃣ Note potential compatibility issues\n    "

/-- Stage 2, `convert_code`: build the translation instruction, call the
gateway at temperature 0.3 with `convertSchema`, decode the reply and
store it in the state's `result`. -/
def convert_code (state : ConversionState) (log : RunLog) :
    Except String ConversionState × RunLog :=
  match chat
      (convert_prompt (pyFormat state.source_language)
        (pyFormat state.target_language) state.code)
      (3 / 10) convertSchema log with
  | (Except.error m, log2) => (Except.error m, log2)
  | (Except.ok response, log2) =>
    match json_loads response with
    | Except.error m => (Except.error m, log2)
    | Except.ok parsed =>
      (Except.ok { state with result := parsed }, log2)

/-- The workflow built by `build_chain`: a linear two-node graph whose
entry point is `extract_languages`, with a single edge to `convert_code`,
which is the finish point.  Invoking the compiled chain runs the two
stages strictly in sequence; a failure in the first stage ends the run. -/
def chain_invoke (state : ConversionState) (log : RunLog) :
    Except String ConversionState × RunLog :=
  match extract_languages state log with
  | (Except.error m, log2) => (Except.error m, log2)
  | (Except.ok s1, log2) => convert_code s1 log2

/-- The initial pipeline state built by the endpoint: request fields plus
empty `source_language`, `target_language` and `result`. -/
def initial_state (request : CodeConvertRequest) : ConversionState :=
  { code := request.code,
    prompt := request.prompt,
    source_language := Json.str "",
    target_language := Json.str "",
    result := Json.obj [] }

/-- Build the `CodeConvertResponse` from the final state's `result`: three
subscripts followed by pydantic field validation; any failure raises. -/
def buildResponse (result : Json) : Except String CodeConvertResponse :=
  match getItem result "code" with
  | Except.error m => Except.error m
  | Except.ok c =>
    match getItem result "language_specific_notes" with
    | Except.error m => Except.error m
    | Except.ok n =>
      match getItem result "potential_compatibility_issues" with
      | Except.error m => Except.error m
      | Except.ok i =>
        match asStr c with
        | Except.error m => Except.error m
        | Except.ok cs =>
          match asStrList n with
          | Except.error m => Except.error m
          | Except.ok ns =>
            match asStrList i with
            | Except.error m => Except.error m
            | Except.ok ps =>
              Except.ok { code := cs, language_specific_notes := ns,
                          potential_compatibility_issues := ps }

/-- The endpoint handler `convert_code_endpoint` for `POST /convert`,
driven by a gateway oracle.  The first component is the HTTP outcome: a
200 response, or a status code (always 500) with its `detail` string.
The second component is the trace of gateway calls made. -/
def convert_code_endpoint (request : CodeConvertRequest)
    (gateway : List (Except String String)) :
    Except (Nat × String) CodeConvertResponse × List ChatCall :=
  match chain_invoke (initial_state request) { calls := [], pending := gateway } with
  | (Except.error m, log2) =>
    (Except.error (500, "Code conversion failed: " ++ m), log2.calls)
  | (Except.ok finalState, log2) =>
    match buildResponse finalState.result with
    | Except.error m =>
      (Except.error (500, "Code conversion failed: " ++ m), log2.calls)
    | Except.ok response => (Except.ok response, log2.calls)

/-- Number of keycap enumeration markers (U+20E3, the combining character
of 1️⃣ … 5️⃣) in a string: counts the numbered requirements of the
translation instruction. -/
def countKeycap (s : String) : Nat :=
  s.data.countP (fun c => c = '⃣')

/-- A JSON array of strings passes `list[str]` validation and decodes to
exactly those strings. -/
theorem asStrItems_map_str (ns : List String) :
    asStrItems (ns.map Json.str) = Except.ok ns := by
  induction ns with
  | nil => rfl
  | cons a as ih => simp [asStrItems, ih]

/-- C1: for every request and every pair of gateway responses conforming
to the two stages' schemas, the endpoint returns the 200 response whose
three fields are exactly the corresponding fields of the second gateway
response. -/
theorem endpoint_returns_conversion_result_verbatim
    (req : CodeConvertRequest) (r1 r2 : String) (j1 j2 : Json)
    (l1 l2 c : String) (ns ps : List String)
    (h1 : json_loads r1 = Except.ok j1)
    (hs : getItem j1 "source_language" = Except.ok (Json.str l1))
    (ht : getItem j1 "target_language" = Except.ok (Json.str l2))
    (_hm1 : l1 ∈ programmingLanguages)
    (_hm2 : l2 ∈ programmingLanguages)
    (h2 : json_loads r2 = Except.ok j2)
    (hc : getItem j2 "code" = Except.ok (Json.str c))
    (hn : getItem j2 "language_specific_notes" =
      Except.ok (Json.arr (ns.map Json.str)))
    (hp : getItem j2 "potential_compatibility_issues" =
      Except.ok (Json.arr (ps.map Json.str))) :
    (convert_code_endpoint req [Except.ok r1, Except.ok r2]).1 =
      Except.ok { code := c, language_specific_notes := ns,
                  potential_compatibility_issues := ps } := by
  simp [convert_code_endpoint, chain_invoke, extract_languages, convert_code,
    chat, initial_state, buildResponse, h1, hs, ht, h2, hc, hn, hp,
    asStr, asStrList, asStrItems_map_str]

/-- Witness for C1: the end-to-end example of the spec, with the gateway
mocked to return the two documented stage outputs. -/
theorem endpoint_returns_conversion_result_verbatim_witness :
    (convert_code_endpoint
      { code := "print(\x27hi\x27)", prompt := "Convert Python to Go" }
      [Except.ok "\x7b\"source_language\":\"python\",\"target_language\":\"go\"\x7d",
       Except.ok "\x7b\"code\":\"fmt.Println(\\\"hi\\\")\",\"language_specific_notes\":[\"Go requires explicit imports\"],\"potential_compatibility_issues\":[]\x7d"]).1 =
      Except.ok { code := "fmt.Println(\"hi\")",
                  language_specific_notes := ["Go requires explicit imports"],
                  potential_compatibility_issues := [] } :=
  endpoint_returns_conversion_result_verbatim
    { code := "print(\x27hi\x27)", prompt := "Convert Python to Go" }
    "\x7b\"source_language\":\"python\",\"target_language\":\"go\"\x7d"
    "\x7b\"code\":\"fmt.Println(\\\"hi\\\")\",\"language_specific_notes\":[\"Go requires explicit imports\"],\"potential_compatibility_issues\":[]\x7d"
    (Json.obj [("source_language", Json.str "python"),
               ("target_language", Json.str "go")])
    (Json.obj [("code", Json.str "fmt.Println(\"hi\")"),
               ("language_specific_notes",
                 Json.arr [Json.str "Go requires explicit imports"]),
               ("potential_compatibility_issues", Json.arr [])])
    "python" "go" "fmt.Println(\"hi\")" ["Go requires explicit imports"] []
    rfl rfl rfl (by simp [programmingLanguages]) (by simp [programmingLanguages])
    rfl rfl rfl rfl

/-- C2: the endpoint produces either a 200 response or a 500 whose detail
is "Code conversion failed: " followed by the raised exception's message;
any exception in the pipeline or in building the response is mapped to
exactly that 500, and no other status code ever occurs. -/
theorem endpoint_maps_failures_to_500
    (req : CodeConvertRequest) (gw : List (Except String String)) :
    ((∃ resp, (convert_code_endpoint req gw).1 = Except.ok resp) ∨
     (∃ m, (convert_code_endpoint req gw).1 =
        Except.error (500, "Code conversion failed: " ++ m)))
    ∧ (∀ m log2,
        chain_invoke (initial_state req) { calls := [], pending := gw } =
          (Except.error m, log2) →
        (convert_code_endpoint req gw).1 =
          Except.error (500, "Code conversion failed: " ++ m))
    ∧ (∀ finalState log2 m,
        chain_invoke (initial_state req) { calls := [], pending := gw } =
          (Except.ok finalState, log2) →
        buildResponse finalState.result = Except.error m →
        (convert_code_endpoint req gw).1 =
          Except.error (500, "Code conversion failed: " ++ m)) := by
  refine ⟨?_, ?_, ?_⟩
  · rcases h : chain_invoke (initial_state req) { calls := [], pending := gw } with ⟨out, log2⟩
    cases out with
    | error m => exact Or.inr ⟨m, by simp [convert_code_endpoint, h]⟩
    | ok st =>
      rcases hb : buildResponse st.result with m | resp
      · exact Or.inr ⟨m, by simp [convert_code_endpoint, h, hb]⟩
      · exact Or.inl ⟨resp, by simp [convert_code_endpoint, h, hb]⟩
  · intro m log2 h
    simp [convert_code_endpoint, h]
  · intro finalState log2 m h hb
    simp [convert_code_endpoint, h, hb]

/-- Witness for C2: a gateway that raises "boom" on the first call yields
the 500 response with detail "Code conversion failed: boom". -/
theorem endpoint_maps_failures_to_500_witness :
    (convert_code_endpoint { code := "x", prompt := "p" }
      [Except.error "boom"]).1 =
      Except.error (500, "Code conversion failed: " ++ "boom") :=
  (endpoint_maps_failures_to_500 { code := "x", prompt := "p" }
    [Except.error "boom"]).2.1 "boom"
    { calls := [⟨extract_prompt "p" "x", 0, extractSchema⟩], pending := [] }
    rfl

/-- The Extraction stage always makes exactly one gateway call: its
analysis instruction, at temperature 0, with the extraction schema. -/
theorem extract_languages_calls (s : ConversionState) (log : RunLog) :
    (extract_languages s log).2.calls =
      log.calls ++ [⟨extract_prompt s.prompt s.code, 0, extractSchema⟩] := by
  unfold extract_languages chat
  cases hp : log.pending with
  | nil => simp
  | cons o rest =>
    cases o with
    | error m => simp
    | ok r =>
      cases hj : json_loads r with
      | error m => simp [hj]
      | ok j =>
        cases h1 : getItem j "source_language" with
        | error m => simp [hj, h1]
        | ok sl =>
          cases h2 : getItem j "target_language" with
          | error m => simp [hj, h1, h2]
          | ok tl => simp [hj, h1, h2]

/-- The Conversion stage always makes exactly one gateway call: its
translation instruction, at temperature 0.3, with the conversion
schema. -/
theorem convert_code_calls (s : ConversionState) (log : RunLog) :
    (convert_code s log).2.calls =
      log.calls ++
        [⟨convert_prompt (pyFormat s.source_language)
            (pyFormat s.target_language) s.code, 3 / 10, convertSchema⟩] := by
  unfold convert_code chat
  cases hp : log.pending with
  | nil => simp
  | cons o rest =>
    cases o with
    | error m => simp
    | ok r =>
      cases hj : json_loads r with
      | error m => simp [hj]
      | ok j => simp [hj]

/-- C3: the workflow runs Extraction strictly before Conversion.  When
Extraction fails, the endpoint's gateway trace is exactly Extraction's
single call, so Conversion's gateway call is never made; when Extraction
succeeds, the endpoint's trace is the one produced by running Conversion
after Extraction. -/
theorem pipeline_runs_extraction_before_conversion
    (req : CodeConvertRequest) (gw : List (Except String String)) :
    (∀ m log1,
      extract_languages (initial_state req) { calls := [], pending := gw } =
        (Except.error m, log1) →
      (convert_code_endpoint req gw).2 = log1.calls ∧ log1.calls.length = 1)
    ∧ (∀ s1 log1,
      extract_languages (initial_state req) { calls := [], pending := gw } =
        (Except.ok s1, log1) →
      (convert_code_endpoint req gw).2 = (convert_code s1 log1).2.calls) := by
  constructor
  · intro m log1 he
    have hc := extract_languages_calls (initial_state req)
      { calls := [], pending := gw }
    rw [he] at hc
    constructor
    · simp [convert_code_endpoint, chain_invoke, he]
    · rw [hc]; rfl
  · intro s1 log1 he
    simp [convert_code_endpoint, chain_invoke, he]
    rcases hcc : convert_code s1 log1 with ⟨out, log2⟩
    cases out with
    | error m => simp [hcc]
    | ok st =>
      rcases hb : buildResponse st.result with m | resp
      · simp [hcc, hb]
      · simp [hcc, hb]

/-- Witness for C3: a gateway raising on the first call leaves a trace of
exactly one gateway call. -/
theorem pipeline_runs_extraction_before_conversion_witness :
    (convert_code_endpoint { code := "y", prompt := "q" }
        [Except.error "down"]).2 =
      [⟨extract_prompt "q" "y", 0, extractSchema⟩] ∧
    ([(⟨extract_prompt "q" "y", 0, extractSchema⟩ : ChatCall)]).length = 1 :=
  (pipeline_runs_extraction_before_conversion { code := "y", prompt := "q" }
    [Except.error "down"]).1 "down"
    { calls := [⟨extract_prompt "q" "y", 0, extractSchema⟩], pending := [] }
    rfl

/-- C4: a request body omitting `prompt` behaves identically — same
gateway calls, same response — to one carrying the explicit default
`"Convert the code to the target language."`. -/
theorem omitted_prompt_equals_default
    (code : String) (gw : List (Except String String)) :
    convert_code_endpoint (requestFromBody code none) gw =
      convert_code_endpoint
        (requestFromBody code (some "Convert the code to the target language.")) gw :=
  rfl

/-- C5: the Extraction stage makes exactly one gateway call, at
temperature 0, with the schema requiring `source_language` and
`target_language`, each an enum over the full Language Catalog; it then
decodes the reply and writes the two decoded values into the state. -/
theorem extraction_stage_contract (s : ConversionState) (log : RunLog) :
    ((extract_languages s log).2.calls =
      log.calls ++ [⟨extract_prompt s.prompt s.code, 0, extractSchema⟩])
    ∧ (getItem extractSchema "required" =
        Except.ok (Json.arr [Json.str "source_language", Json.str "target_language"]))
    ∧ ((getItem extractSchema "properties" >>= fun p =>
          getItem p "source_language" >>= fun q => getItem q "enum") =
        Except.ok (Json.arr (programmingLanguages.map Json.str)))
    ∧ ((getItem extractSchema "properties" >>= fun p =>
          getItem p "target_language" >>= fun q => getItem q "enum") =
        Except.ok (Json.arr (programmingLanguages.map Json.str)))
    ∧ (∀ resp rest j v1 v2,
        log.pending = Except.ok resp :: rest →
        json_loads resp = Except.ok j →
        getItem j "source_language" = Except.ok v1 →
        getItem j "target_language" = Except.ok v2 →
        (extract_languages s log).1 =
          Except.ok { s with source_language := v1, target_language := v2 }) := by
  refine ⟨extract_languages_calls s log, rfl, rfl, rfl, ?_⟩
  intro resp rest j v1 v2 hpend hj h1 h2
  simp [extract_languages, chat, hpend, hj, h1, h2]

/-- Witness for C5: a mocked extraction reply naming python and go is
decoded and written into the state. -/
theorem extraction_stage_contract_witness :
    (extract_languages (initial_state { code := "c", prompt := "p" })
        { calls := [],
          pending := [Except.ok "\x7b\"source_language\":\"python\",\"target_language\":\"go\"\x7d"] }).1 =
      Except.ok { initial_state { code := "c", prompt := "p" } with
                  source_language := Json.str "python",
                  target_language := Json.str "go" } :=
  (extraction_stage_contract (initial_state { code := "c", prompt := "p" })
    { calls := [],
      pending := [Except.ok "\x7b\"source_language\":\"python\",\"target_language\":\"go\"\x7d"] }).2.2.2.2
    "\x7b\"source_language\":\"python\",\"target_language\":\"go\"\x7d" []
    (Json.obj [("source_language", Json.str "python"),
               ("target_language", Json.str "go")])
    (Json.str "python") (Json.str "go") rfl rfl rfl rfl

/-- C6: the Conversion stage makes exactly one gateway call, at
temperature 0.3, with the schema requiring `code` (string),
`language_specific_notes` and `potential_compatibility_issues` (arrays of
strings); it then stores the decoded reply in the state's `result`. -/
theorem conversion_stage_contract (s : ConversionState) (log : RunLog) :
    ((convert_code s log).2.calls =
      log.calls ++
        [⟨convert_prompt (pyFormat s.source_language)
            (pyFormat s.target_language) s.code, 3 / 10, convertSchema⟩])
    ∧ (getItem convertSchema "required" =
        Except.ok (Json.arr [Json.str "code", Json.str "language_specific_notes",
                             Json.str "potential_compatibility_issues"]))
    ∧ ((getItem convertSchema "properties" >>= fun p =>
          getItem p "code" >>= fun q => getItem q "type") =
        Except.ok (Json.str "string"))
    ∧ ((getItem convertSchema "properties" >>= fun p =>
          getItem p "language_specific_notes" >>= fun q => getItem q "items") =
        Except.ok (Json.obj [("type", Json.str "string")]))
    ∧ ((getItem convertSchema "properties" >>= fun p =>
          getItem p "potential_compatibility_issues" >>= fun q => getItem q "items") =
        Except.ok (Json.obj [("type", Json.str "string")]))
    ∧ (∀ resp rest j,
        log.pending = Except.ok resp :: rest →
        json_loads resp = Except.ok j →
        (convert_code s log).1 = Except.ok { s with result := j }) := by
  refine ⟨convert_code_calls s log, rfl, rfl, rfl, rfl, ?_⟩
  intro resp rest j hpend hj
  simp [convert_code, chat, hpend, hj]

/-- Witness for C6: a mocked conversion reply is decoded and stored as the
state's `result`. -/
theorem conversion_stage_contract_witness :
    (convert_code (initial_state { code := "c2", prompt := "p2" })
        { calls := [],
          pending := [Except.ok "\x7b\"code\":\"ok\",\"language_specific_notes\":[],\"potential_compatibility_issues\":[]\x7d"] }).1 =
      Except.ok { initial_state { code := "c2", prompt := "p2" } with
                  result := Json.obj
                    [("code", Json.str "ok"),
                     ("language_specific_notes", Json.arr []),
                     ("potential_compatibility_issues", Json.arr [])] } :=
  (conversion_stage_contract (initial_state { code := "c2", prompt := "p2" })
    { calls := [],
      pending := [Except.ok "\x7b\"code\":\"ok\",\"language_specific_notes\":[],\"potential_compatibility_issues\":[]\x7d"] }).2.2.2.2.2
    "\x7b\"code\":\"ok\",\"language_specific_notes\":[],\"potential_compatibility_issues\":[]\x7d" []
    (Json.obj [("code", Json.str "ok"),
               ("language_specific_notes", Json.arr []),
               ("potential_compatibility_issues", Json.arr [])])
    rfl rfl

/-- Counting keycap markers distributes over string concatenation. -/
theorem countKeycap_append (a b : String) :
    countKeycap (a ++ b) = countKeycap a + countKeycap b := by
  simp [countKeycap, String.data_append]

/-- An infix of the left part of a concatenation is an infix of the
whole. -/
theorem seg_left {x a : List Char} (h : x <:+: a) (b : List Char) :
    x <:+: a ++ b :=
  h.trans (List.prefix_append a b).isInfix

set_option maxRecDepth 400000 in
/-- Counterexample to C7: the translation instruction enumerates five
numbered requirements, not four — items 4️⃣ (language-specific
considerations) and 5️⃣ (compatibility issues) are separate entries. -/
theorem convert_prompt_not_four_requirements :
    countKeycap (convert_prompt "python" "go" "print(1)") ≠ 4 ∧
    ("4️⃣ Provide any language-specific considerations".data <:+:
      (convert_prompt "python" "go" "print(1)").data) ∧
    ("5️⃣ Note potential compatibility issues".data <:+:
      (convert_prompt "python" "go" "print(1)").data) := by
  refine ⟨by decide, ?_, ?_⟩ <;> decide

set_option maxRecDepth 400000 in
/-- C7 as amended: the translation instruction enumerates five
requirements — preserve functionality, idiomatic target-language
patterns, executability, language-specific considerations, and potential
compatibility issues, the last two as separate items. -/
theorem convert_prompt_five_requirements (src tgt codeField : String)
    (h1 : countKeycap src = 0) (h2 : countKeycap tgt = 0)
    (h3 : countKeycap codeField = 0) :
    countKeycap (convert_prompt src tgt codeField) = 5 := by
  simp only [convert_prompt, countKeycap_append, h1, h2, h3]
  decide

/-- Witness for the amended C7, at the inputs of the end-to-end
example. -/
theorem convert_prompt_five_requirements_witness :
    countKeycap (convert_prompt "python" "go" "print(\x27hi\x27)") = 5 :=
  convert_prompt_five_requirements "python" "go" "print(\x27hi\x27)"
    (by decide) (by decide) (by decide)

set_option maxRecDepth 400000 in
/-- Counterexample to C8: "haskell" is a member of the Language Catalog,
yet the analysis instruction built by the Extraction stage never mentions
it — the instruction's language list admits only a 10-language subset, so
it does not present every catalog member as a candidate. -/
theorem extract_prompt_omits_catalog_members :
    "haskell" ∈ programmingLanguages ∧
    ¬ ("haskell".data <:+: (extract_prompt "Convert it" "x = 1").data) := by
  constructor
  · decide
  · decide

set_option maxRecDepth 400000 in
/-- C8 as amended: the analysis instruction asks for a `source_language`
and a `target_language` but names only the 10-language list python,
javascript, typescript, java, csharp, go, rust, cpp, swift, kotlin; the
full Language Catalog constraint is carried by the JSON-schema
`response_format`, whose enums list all 39 catalog members. -/
theorem extract_prompt_names_ten_languages (p c : String) :
    ("Use lowercase language names from this list: python, javascript, typescript, java, csharp, go, rust, cpp, swift, kotlin.".data <:+:
      (extract_prompt p c).data) ∧
    ("source_language".data <:+: (extract_prompt p c).data) ∧
    ("target_language".data <:+: (extract_prompt p c).data) ∧
    ((getItem extractSchema "properties" >>= fun q =>
        getItem q "source_language" >>= fun q2 => getItem q2 "enum") =
      Except.ok (Json.arr (programmingLanguages.map Json.str))) ∧
    programmingLanguages.length = 39 := by
  refine ⟨?_, ?_, ?_, rfl, rfl⟩ <;>
    · simp only [extract_prompt, String.data_append, List.append_assoc]
      exact seg_left (by decide) _

/-- C9: the Extraction stage never re-validates catalog membership: any
gateway reply decoding to a JSON object carrying both language keys is
accepted and its values — catalog members or not — are written into the
state; no "language not recognized" failure exists in this code. -/
theorem extraction_does_not_revalidate_languages
    (s : ConversionState) (log : RunLog)
    (resp : String) (rest : List (Except String String)) (j v1 v2 : Json)
    (hpend : log.pending = Except.ok resp :: rest)
    (hj : json_loads resp = Except.ok j)
    (h1 : getItem j "source_language" = Except.ok v1)
    (h2 : getItem j "target_language" = Except.ok v2) :
    (extract_languages s log).1 =
      Except.ok { s with source_language := v1, target_language := v2 } := by
  simp [extract_languages, chat, hpend, hj, h1, h2]

/-- Witness for C9: a gateway naming "klingon" and "elvish", neither a
Language Catalog member, is accepted verbatim by the Extraction stage. -/
theorem extraction_does_not_revalidate_languages_witness :
    "klingon" ∉ programmingLanguages ∧ "elvish" ∉ programmingLanguages ∧
    (extract_languages (initial_state { code := "k", prompt := "q" })
        { calls := [],
          pending := [Except.ok "\x7b\"source_language\":\"klingon\",\"target_language\":\"elvish\"\x7d"] }).1 =
      Except.ok { initial_state { code := "k", prompt := "q" } with
                  source_language := Json.str "klingon",
                  target_language := Json.str "elvish" } :=
  ⟨by decide, by decide,
   extraction_does_not_revalidate_languages
     (initial_state { code := "k", prompt := "q" })
     { calls := [],
       pending := [Except.ok "\x7b\"source_language\":\"klingon\",\"target_language\":\"elvish\"\x7d"] }
     "\x7b\"source_language\":\"klingon\",\"target_language\":\"elvish\"\x7d" []
     (Json.obj [("source_language", Json.str "klingon"),
                ("target_language", Json.str "elvish")])
     (Json.str "klingon") (Json.str "elvish") rfl rfl rfl rfl⟩

/-- C10: each stage writes only its own output fields.  A successful
Extraction leaves `code`, `prompt` and `result` unchanged; a successful
Conversion leaves `code`, `prompt`, `source_language` and
`target_language` unchanged. -/
theorem stages_write_only_their_fields
    (s s1 s2 : ConversionState) (logA logB log1 log2 : RunLog)
    (he : extract_languages s logA = (Except.ok s1, log1))
    (hc : convert_code s logB = (Except.ok s2, log2)) :
    (s1.code = s.code ∧ s1.prompt = s.prompt ∧ s1.result = s.result)
    ∧ (s2.code = s.code ∧ s2.prompt = s.prompt ∧
       s2.source_language = s.source_language ∧
       s2.target_language = s.target_language) := by
  constructor
  · rcases hp : logA.pending with _ | ⟨o, rest⟩
    · simp [extract_languages, chat, hp] at he
    · cases o with
      | error m => simp [extract_languages, chat, hp] at he
      | ok r =>
        rcases hj : json_loads r with m | j
        · simp [extract_languages, chat, hp, hj] at he
        · rcases h1 : getItem j "source_language" with m | sl
          · simp [extract_languages, chat, hp, hj, h1] at he
          · rcases h2 : getItem j "target_language" with m | tl
            · simp [extract_languages, chat, hp, hj, h1, h2] at he
            · simp [extract_languages, chat, hp, hj, h1, h2] at he
              obtain ⟨hs1, -⟩ := he
              subst hs1
              exact ⟨rfl, rfl, rfl⟩
  · rcases hp : logB.pending with _ | ⟨o, rest⟩
    · simp [convert_code, chat, hp] at hc
    · cases o with
      | error m => simp [convert_code, chat, hp] at hc
      | ok r =>
        rcases hj : json_loads r with m | j
        · simp [convert_code, chat, hp, hj] at hc
        · simp [convert_code, chat, hp, hj] at hc
          obtain ⟨hs2, -⟩ := hc
          subst hs2
          exact ⟨rfl, rfl, rfl, rfl⟩

/-- Witness for C10: concrete successful runs of both stages preserve the
non-output fields. -/
theorem stages_write_only_their_fields_witness :
    ((({ initial_state { code := "cc", prompt := "pp" } with
          source_language := Json.str "python",
          target_language := Json.str "go" } : ConversionState).code =
        (initial_state { code := "cc", prompt := "pp" }).code ∧
      ({ initial_state { code := "cc", prompt := "pp" } with
          source_language := Json.str "python",
          target_language := Json.str "go" } : ConversionState).prompt =
        (initial_state { code := "cc", prompt := "pp" }).prompt ∧
      ({ initial_state { code := "cc", prompt := "pp" } with
          source_language := Json.str "python",
          target_language := Json.str "go" } : ConversionState).result =
        (initial_state { code := "cc", prompt := "pp" }).result)
     ∧ (({ initial_state { code := "cc", prompt := "pp" } with
            result := Json.obj [("code", Json.str "k"),
              ("language_specific_notes", Json.arr []),
              ("potential_compatibility_issues", Json.arr [])] } : ConversionState).code =
          (initial_state { code := "cc", prompt := "pp" }).code ∧
        ({ initial_state { code := "cc", prompt := "pp" } with
            result := Json.obj [("code", Json.str "k"),
              ("language_specific_notes", Json.arr []),
              ("potential_compatibility_issues", Json.arr [])] } : ConversionState).prompt =
          (initial_state { code := "cc", prompt := "pp" }).prompt ∧
        ({ initial_state { code := "cc", prompt := "pp" } with
            result := Json.obj [("code", Json.str "k"),
              ("language_specific_notes", Json.arr []),
              ("potential_compatibility_issues", Json.arr [])] } : ConversionState).source_language =
          (initial_state { code := "cc", prompt := "pp" }).source_language ∧
        ({ initial_state { code := "cc", prompt := "pp" } with
            result := Json.obj [("code", Json.str "k"),
              ("language_specific_notes", Json.arr []),
              ("potential_compatibility_issues", Json.arr [])] } : ConversionState).target_language =
          (initial_state { code := "cc", prompt := "pp" }).target_language)) :=
  stages_write_only_their_fields
    (initial_state { code := "cc", prompt := "pp" })
    { initial_state { code := "cc", prompt := "pp" } with
        source_language := Json.str "python", target_language := Json.str "go" }
    { initial_state { code := "cc", prompt := "pp" } with
        result := Json.obj [("code", Json.str "k"),
          ("language_specific_notes", Json.arr []),
          ("potential_compatibility_issues", Json.arr [])] }
    { calls := [],
      pending := [Except.ok "\x7b\"source_language\":\"python\",\"target_language\":\"go\"\x7d"] }
    { calls := [],
      pending := [Except.ok "\x7b\"code\":\"k\",\"language_specific_notes\":[],\"potential_compatibility_issues\":[]\x7d"] }
    { calls := [⟨extract_prompt "pp" "cc", 0, extractSchema⟩], pending := [] }
    { calls := [⟨convert_prompt "" "" "cc", 3 / 10, convertSchema⟩], pending := [] }
    rfl rfl
